import Mathlib

/-!
Shallow embedding of the MQTT_HASS library (src/src/MQTT_HASS.h, final
revision: the implementation section containing `MQTT_HASS::connect`,
`MQTT_HASS::registerEntity`, `MQTT_HASS::publishAvailabilities`,
`MQTT_HASS::globalCallback` and the per-kind entity implementations).

The underlying MQTT client (an external collaborator) is modelled as a
`Transport` oracle giving the boolean result of each publish / subscribe /
connect call.  Every observable transport interaction is recorded in a
trace of `Event`s, tagged by call site and carrying the real topic and
payload strings that the C++ code builds.

Machine strings (`String` in Wiring/Particle) are modelled as Lean
`String`; the `length`-bounded payload decode in `globalCallback`
(`char p[length+1]; memcpy; String message(p)`) is modelled by passing the
decoded payload string directly.  C++ enums are integers; device-class
enums are modelled as `Nat` indices into the literal string tables from
the source (`None` is index 0), and the small closed state enums as Lean
inductives with their `states2Str` tables as total functions.
-/

/-- Device record, from the `Device` struct. -/
structure Device where
  name : String
  model : String
  swVersion : String
  manufacturer : String
deriving DecidableEq, Repr

/-- Trace of observable transport interactions, tagged by call site.
`pubConfig`, `pubAvail` and `pubState` are all `client_.publish` calls
(from `Entity::publishDiscovery`, `Entity::publishAvailability` and
`Entity::publishState` respectively); `subscribe` is `client_.subscribe`;
`connectAttempt` is `MQTT::connect`; `invoke` records a command-handler
invocation `entity->callbackPtr_(topic, payload, length)`, identifying the
raw function pointer by a numeric id. -/
inductive Event where
  | pubConfig (topic payload : String)
  | pubAvail (topic payload : String)
  | pubState (topic payload : String)
  | subscribe (topic : String)
  | connectAttempt (clientId username password : String)
  | invoke (handlerId : Nat) (topic payload : String)
deriving DecidableEq, Repr

/-- Oracle for the external MQTT client: result of `publish(topic, payload)`,
of `subscribe(topic)`, and of `MQTT::connect`. -/
structure Transport where
  pub : String → String → Bool
  sub : String → Bool
  connResult : Bool

/-- Registry view of an entity: the `topicBase_` and `callbackPtr_` fields
set by `Entity::init` (`none` models a null function pointer), plus the
config payload that the kind-specific `publishDiscovery` override builds
and passes to `Entity::publishDiscovery(const char*)`. -/
structure Entity where
  topicBase : String
  callbackPtr : Option Nat
  configPayload : String
deriving DecidableEq, Repr

/-- Model of `Entity::publishDiscovery(const char *configJSON)`: publish the
config payload to `topicBase_ + "config"`; on success, if the callback
pointer is non-null, subscribe to `topicBase_ + "command"`. -/
def Entity.publishDiscovery (t : Transport) (e : Entity) : Bool × List Event :=
  if t.pub (e.topicBase ++ "config") e.configPayload then
    match e.callbackPtr with
    | some _ =>
        (t.sub (e.topicBase ++ "command"),
         [Event.pubConfig (e.topicBase ++ "config") e.configPayload,
          Event.subscribe (e.topicBase ++ "command")])
    | none =>
        (true, [Event.pubConfig (e.topicBase ++ "config") e.configPayload])
  else
    (false, [Event.pubConfig (e.topicBase ++ "config") e.configPayload])

/-- Model of `Entity::publishAvailability()`: publish the literal `"online"`
to `topicBase_ + "availability"`. -/
def Entity.publishAvailability (t : Transport) (e : Entity) : Bool × List Event :=
  (t.pub (e.topicBase ++ "availability") "online",
   [Event.pubAvail (e.topicBase ++ "availability") "online"])

/-- Registry state: the `entities_` vector and the base MQTT connection flag
(`MQTT::isConnected()`). -/
structure MQTT_HASS where
  entities : List Entity
  connected : Bool
deriving DecidableEq, Repr

/-- Model of `MQTT_HASS::connect(username, password)`:
if already connected return `true`; otherwise clear a non-empty entity
list, attempt `MQTT::connect("particle" + serial + time, user, pass)`
(failure returns `false`), and finally return the NEGATION of
`MQTT::subscribe("homeassistant/status")` exactly as written in the
source (`return !MQTT::subscribe(...)`). -/
def MQTT_HASS.connect (t : Transport) (st : MQTT_HASS)
    (serial timeNow username password : String) : Bool × MQTT_HASS × List Event :=
  if st.connected then
    (true, st, [])
  else
    let st1 : MQTT_HASS := if st.entities.isEmpty then st else { st with entities := [] }
    let ev0 := Event.connectAttempt ("particle" ++ serial ++ timeNow) username password
    if t.connResult then
      (!(t.sub "homeassistant/status"),
       { st1 with connected := true },
       [ev0, Event.subscribe "homeassistant/status"])
    else
      (false, { st1 with connected := false }, [ev0])

/-- Model of `MQTT_HASS::registerEntity(Entity *entity)`: call the entity's
`publishDiscovery()` (its result is ignored), then append the entity;
the returned value is the `Vector::append` result, which is modelled as
always `true`. -/
def MQTT_HASS.registerEntity (t : Transport) (st : MQTT_HASS) (e : Entity) :
    Bool × MQTT_HASS × List Event :=
  let d := Entity.publishDiscovery t e
  (true, { st with entities := st.entities ++ [e] }, d.2)

/-- Loop body of `MQTT_HASS::publishAvailabilities()`: iterate the entities
in order, returning `false` as soon as one `publishAvailability()` fails
(remaining entities are not attempted). -/
def publishAvailList (t : Transport) : List Entity → Bool × List Event
  | [] => (true, [])
  | e :: rest =>
    let a := Entity.publishAvailability t e
    if a.1 then
      let r := publishAvailList t rest
      (r.1, a.2 ++ r.2)
    else
      (false, a.2)

/-- Model of `MQTT_HASS::publishAvailabilities()`. -/
def MQTT_HASS.publishAvailabilities (t : Transport) (st : MQTT_HASS) : Bool × List Event :=
  publishAvailList t st.entities

/-- Discovery-replay loop of `MQTT_HASS::globalCallback` for the hub birth
message: call `publishDiscovery()` on every entity in order, ignoring
each result. -/
def discoveryReplay (t : Transport) : List Entity → List Event
  | [] => []
  | e :: rest => (Entity.publishDiscovery t e).2 ++ discoveryReplay t rest

/-- Command-dispatch loop of `MQTT_HASS::globalCallback`: for each entity
whose `topicBase_ + "command"` equals the inbound topic and whose
callback pointer is non-null, invoke the callback with the raw message. -/
def dispatchLoop : List Entity → String → String → List Event
  | [], _, _ => []
  | e :: rest, topic, payload =>
    (if topic = e.topicBase ++ "command" then
       match e.callbackPtr with
       | some h => [Event.invoke h topic payload]
       | none => []
     else []) ++ dispatchLoop rest topic payload

/-- Model of `MQTT_HASS::globalCallback(topic, payload, length)`:
on topic `"homeassistant/status"` with payload `"online"`, replay
discovery for every entity and then call `publishAvailabilities()`;
for any other payload on that topic, do nothing; for any other topic,
run the command-dispatch loop. -/
def MQTT_HASS.globalCallback (t : Transport) (st : MQTT_HASS)
    (topic payload : String) : List Event :=
  if topic = "homeassistant/status" then
    if payload = "online" then
      discoveryReplay t st.entities ++ (MQTT_HASS.publishAvailabilities t st).2
    else []
  else
    dispatchLoop st.entities topic payload

/-- Topics of the `pubConfig` events of a trace, in order. -/
def configTopics : List Event → List String
  | [] => []
  | Event.pubConfig topic _ :: rest => topic :: configTopics rest
  | _ :: rest => configTopics rest

/-- Topics of the `pubAvail` events of a trace, in order. -/
def availTopics : List Event → List String
  | [] => []
  | Event.pubAvail topic _ :: rest => topic :: availTopics rest
  | _ :: rest => availTopics rest

/-- Specification-side helper: the entities whose availability publish is
actually attempted by the short-circuiting availability pass — every
entity up to and including the first one whose publish fails. -/
def availUpTo (t : Transport) : List Entity → List Entity
  | [] => []
  | e :: rest =>
    if t.pub (e.topicBase ++ "availability") "online" then e :: availUpTo t rest
    else [e]

/-- Entry written by the `JSONBufferWriter` while building a discovery
payload: either a `writer.name(key).value(value)` string field, or
the nested device object written by `Entity::fillDeviceJSON`. -/
inductive JEntry where
  | field (key value : String)
  | deviceObj (dev : Device)
deriving DecidableEq, Repr

/-- Top-level JSON key of a writer entry (`fillDeviceJSON` writes the
nested object under the key `"device"`). -/
def JEntry.keyOf : JEntry → String
  | .field k _ => k
  | .deviceObj _ => "device"

/-- BinarySensor entity data: constructor arguments of `BinarySensor`.
`deviceClass` is the enum ordinal (`DeviceClasses::None` is 0). -/
structure BinarySensor where
  name : String
  displayName : String
  dev : Device
  deviceClass : Nat
deriving DecidableEq, Repr

/-- The `BinarySensor::deviceClasses2Str` table. -/
def BinarySensor.deviceClasses2Str : List String :=
  ["None", "battery", "battery_charging", "carbon_monoxide", "cold",
   "connectivity", "door", "garage_door", "gas", "heat", "light", "lock",
   "moisture", "motion", "moving", "occupancy", "opening", "plug", "power",
   "presence", "problem", "running", "safety", "smoke", "sound", "tamper",
   "update", "vibration", "window"]

/-- Topic base set by the `BinarySensor` constructor via `Entity::init`. -/
def BinarySensor.topicBase (b : BinarySensor) : String :=
  "homeassistant/binary_sensor/particle_" ++ b.dev.name ++ "/" ++ b.name ++ "/"

/-- Writer entries of `BinarySensor::publishDiscovery`, in source order;
`device_class` is written only when the class differs from
`DeviceClasses::None`.  `serial` is `Utils::getSerialNum()`. -/
def BinarySensor.discoveryEntries (serial : String) (b : BinarySensor) : List JEntry :=
  [JEntry.field "name" b.displayName,
   JEntry.field "state_topic" (b.topicBase ++ "state"),
   JEntry.field "availability_topic" (b.topicBase ++ "availability"),
   JEntry.field "unique_id" (serial ++ "_" ++ b.name),
   JEntry.deviceObj b.dev]
  ++ (if b.deviceClass ≠ 0 then
        [JEntry.field "device_class" (BinarySensor.deviceClasses2Str.getD b.deviceClass "")]
      else [])

/-- The `BinarySensor::States` enum. -/
inductive BinarySensor.States where
  | OFF
  | ON
deriving DecidableEq, Repr

/-- The `BinarySensor::states2Str` table. -/
def BinarySensor.states2Str : BinarySensor.States → String
  | .OFF => "OFF"
  | .ON => "ON"

/-- Model of `Entity::publishState(state)` for an entity with the given
topic base: publish the state string to `topicBase_ + "state"`. -/
def publishStateTo (t : Transport) (base s : String) : Bool × List Event :=
  (t.pub (base ++ "state") s, [Event.pubState (base ++ "state") s])

/-- Model of `BinarySensor::updateState(val)`:
`Entity::publishState(states2Str[val])`. -/
def BinarySensor.updateState (t : Transport) (b : BinarySensor)
    (v : BinarySensor.States) : Bool × List Event :=
  publishStateTo t b.topicBase (BinarySensor.states2Str v)

/-- The `Sensor::EntityCategories` enum. -/
inductive Sensor.EntityCategories where
  | normal
  | diagnostic
deriving DecidableEq, Repr

/-- Sensor entity data: constructor arguments of `Sensor`.  `deviceClass`
is the enum ordinal (`DeviceClasses::None` is 0). -/
structure Sensor where
  name : String
  displayName : String
  dev : Device
  deviceClass : Nat
  unitOfMeasurement : String
  entityCategory : Sensor.EntityCategories
deriving DecidableEq, Repr

/-- The `Sensor::deviceClasses2Str` table. -/
def Sensor.deviceClasses2Str : List String :=
  ["None", "apparent_power", "aqi", "area", "atompsheric_pressure",
   "battery", "blood_glucose_concentration", "carbon_dioxide",
   "carbon_monoxide", "current", "data_rate", "data_size", "date",
   "distance", "duration", "energy", "energy_storage", "enum", "frequency",
   "gas", "humidity", "illuminance", "irradiance", "moisture", "monetary",
   "nitrogen_dioxide", "nitrogen_monoxide", "nitrous_oxide", "ozone", "ph",
   "pm1", "pm25", "pm10", "power_factor", "power", "precipitation",
   "precipitation_intensity", "pressure", "reactive_power",
   "signal_strength", "sound_pressure", "speed", "sulphur_dioxide",
   "temperature", "timestamp", "volatile_organic_compounds",
   "volatile_organic_compounds_parts", "voltage", "volume",
   "volume_flow_rate", "volume_storage", "water", "weight", "wind_speed"]

/-- Topic base set by the `Sensor` constructor via `Entity::init`. -/
def Sensor.topicBase (s : Sensor) : String :=
  "homeassistant/sensor/particle_" ++ s.dev.name ++ "/" ++ s.name ++ "/"

/-- Writer entries of `Sensor::publishDiscovery`, in source order;
`device_class` is written only when the class differs from
`DeviceClasses::None`, `unit_of_measurement` only when the unit string
is non-empty, and `entity_category` only when the category is
`diagnostic`. -/
def Sensor.discoveryEntries (serial : String) (s : Sensor) : List JEntry :=
  [JEntry.field "name" s.displayName,
   JEntry.field "state_topic" (s.topicBase ++ "state"),
   JEntry.field "availability_topic" (s.topicBase ++ "availability"),
   JEntry.field "unique_id" (serial ++ "_" ++ s.name),
   JEntry.deviceObj s.dev]
  ++ (if s.deviceClass ≠ 0 then
        [JEntry.field "device_class" (Sensor.deviceClasses2Str.getD s.deviceClass "")]
      else [])
  ++ (if s.unitOfMeasurement ≠ "" then
        [JEntry.field "unit_of_measurement" s.unitOfMeasurement]
      else [])
  ++ (if s.entityCategory = Sensor.EntityCategories.diagnostic then
        [JEntry.field "entity_category" "diagnostic"]
      else [])

/-- Button entity data: constructor arguments of `Button`.  `deviceClass`
is the enum ordinal (`DeviceClasses::None` is 0); `callbackId`
identifies the handler function pointer. -/
structure Button where
  name : String
  displayName : String
  dev : Device
  callbackId : Nat
  deviceClass : Nat
deriving DecidableEq, Repr

/-- The `Button::deviceClasses2Str` table. -/
def Button.deviceClasses2Str : List String :=
  ["None", "identify", "restart", "update"]

/-- Topic base set by the `Button` constructor via `Entity::init`. -/
def Button.topicBase (b : Button) : String :=
  "homeassistant/button/particle_" ++ b.dev.name ++ "/" ++ b.name ++ "/"

/-- Writer entries of `Button::publishDiscovery`, in source order (a button
has a `command_topic` and no `state_topic`); `device_class` is written
only when the class differs from `DeviceClasses::None`. -/
def Button.discoveryEntries (serial : String) (b : Button) : List JEntry :=
  [JEntry.field "name" b.displayName,
   JEntry.field "command_topic" (b.topicBase ++ "command"),
   JEntry.field "availability_topic" (b.topicBase ++ "availability"),
   JEntry.field "unique_id" (serial ++ "_" ++ b.name),
   JEntry.deviceObj b.dev]
  ++ (if b.deviceClass ≠ 0 then
        [JEntry.field "device_class" (Button.deviceClasses2Str.getD b.deviceClass "")]
      else [])

/-- The `Lock::States` enum. -/
inductive Lock.States where
  | UNLOCKED
  | UNLOCKING
  | LOCKED
  | LOCKING
  | JAMMED
deriving DecidableEq, Repr

/-- Lock entity data: constructor arguments of `Lock`. -/
structure Lock where
  name : String
  displayName : String
  dev : Device
  callbackId : Nat
deriving DecidableEq, Repr

/-- The `Lock::states2Str` table. -/
def Lock.states2Str : Lock.States → String
  | .UNLOCKED => "UNLOCKED"
  | .UNLOCKING => "UNLOCKING"
  | .LOCKED => "LOCKED"
  | .LOCKING => "LOCKING"
  | .JAMMED => "JAMMED"

/-- Topic base set by the `Lock` constructor via `Entity::init`. -/
def Lock.topicBase (l : Lock) : String :=
  "homeassistant/lock/particle_" ++ l.dev.name ++ "/" ++ l.name ++ "/"

/-- Model of `Lock::updateState(val)`:
`Entity::publishState(states2Str[val])`. -/
def Lock.updateState (t : Transport) (l : Lock) (v : Lock.States) : Bool × List Event :=
  publishStateTo t l.topicBase (Lock.states2Str v)

/-- The `Cover::States` enum. -/
inductive Cover.States where
  | OPEN
  | CLOSED
  | OPENING
  | CLOSING
  | STOPPED
deriving DecidableEq, Repr

/-- Cover entity data: constructor arguments of `Cover`.  `deviceClass` is
the enum ordinal (`DeviceClasses::None` is 0). -/
structure Cover where
  name : String
  displayName : String
  dev : Device
  callbackId : Nat
  deviceClass : Nat
deriving DecidableEq, Repr

/-- The `Cover::states2Str` table (lowercase tokens). -/
def Cover.states2Str : Cover.States → String
  | .OPEN => "open"
  | .CLOSED => "closed"
  | .OPENING => "opening"
  | .CLOSING => "closing"
  | .STOPPED => "stopped"

/-- The `Cover::deviceClasses2Str` table. -/
def Cover.deviceClasses2Str : List String :=
  ["None", "awning", "blind", "curtain", "damper", "door", "garage",
   "gate", "shutter", "window"]

/-- Topic base set by the `Cover` constructor via `Entity::init`. -/
def Cover.topicBase (c : Cover) : String :=
  "homeassistant/cover/particle_" ++ c.dev.name ++ "/" ++ c.name ++ "/"

/-- Writer entries of `Cover::publishDiscovery`, in source order;
`device_class` is written only when the class differs from
`DeviceClasses::None`. -/
def Cover.discoveryEntries (serial : String) (c : Cover) : List JEntry :=
  [JEntry.field "name" c.displayName,
   JEntry.field "state_topic" (c.topicBase ++ "state"),
   JEntry.field "command_topic" (c.topicBase ++ "command"),
   JEntry.field "availability_topic" (c.topicBase ++ "availability"),
   JEntry.field "unique_id" (serial ++ "_" ++ c.name),
   JEntry.deviceObj c.dev]
  ++ (if c.deviceClass ≠ 0 then
        [JEntry.field "device_class" (Cover.deviceClasses2Str.getD c.deviceClass "")]
      else [])

/-- Model of `Cover::updateState(val)`:
`Entity::publishState(states2Str[val])`. -/
def Cover.updateState (t : Transport) (c : Cover) (v : Cover.States) : Bool × List Event :=
  publishStateTo t c.topicBase (Cover.states2Str v)

/-- Concrete device used for witnesses. -/
def devA : Device := ⟨"dev", "modelA", "1.0", "Particle MQTT_HASS"⟩

/-- Concrete entity with a command handler (registry view of a lock). -/
def ceA : Entity := ⟨"homeassistant/lock/particle_dev/a/", some 1, "cfgA"⟩

/-- Second concrete entity with a command handler. -/
def ceB : Entity := ⟨"homeassistant/lock/particle_dev/b/", some 2, "cfgB"⟩

/-- Concrete entity sharing `ceA`'s topic base but with another handler. -/
def ceC : Entity := ⟨"homeassistant/lock/particle_dev/a/", some 3, "cfgC"⟩

/-- Concrete handler-less entity (registry view of a plain sensor). -/
def ceS : Entity := ⟨"homeassistant/sensor/particle_dev/s/", none, "cfgS"⟩

/-- Transport on which every operation succeeds. -/
def tAll : Transport := ⟨fun _ _ => true, fun _ => true, true⟩

/-- Transport on which every operation fails. -/
def tNone : Transport := ⟨fun _ _ => false, fun _ => false, false⟩

/-- Transport failing exactly the publish to `ceA`'s availability topic. -/
def tFailA : Transport :=
  ⟨fun topic _ => !(topic == "homeassistant/lock/particle_dev/a/availability"),
   fun _ => true, true⟩

/-- Transport failing exactly the publish to `ceB`'s availability topic. -/
def tFailB : Transport :=
  ⟨fun topic _ => !(topic == "homeassistant/lock/particle_dev/b/availability"),
   fun _ => true, true⟩

/-- Registry holding `ceA` and `ceB`, connected. -/
def stAB : MQTT_HASS := ⟨[ceA, ceB], true⟩

/-- Registry holding the colliding entities `ceA` and `ceC`, connected. -/
def stAC : MQTT_HASS := ⟨[ceA, ceC], true⟩

/-- Empty, disconnected registry. -/
def st0 : MQTT_HASS := ⟨[], false⟩

/-- Disconnected registry holding one entity. -/
def stOneDisc : MQTT_HASS := ⟨[ceA], false⟩

/-- Connected registry holding one entity. -/
def stConn : MQTT_HASS := ⟨[ceA], true⟩

/-- Concrete binary sensor with the default (`None`) device class. -/
def bsPlain : BinarySensor := ⟨"bs", "Binary Sensor", devA, 0⟩

theorem publishAvailList_fst (t : Transport) (es : List Entity) :
    (publishAvailList t es).1
      = es.all (fun e => t.pub (e.topicBase ++ "availability") "online") := by
  induction es with
  | nil => rfl
  | cons e rest ih =>
    simp only [publishAvailList, Entity.publishAvailability, List.all_cons]
    by_cases h : t.pub (e.topicBase ++ "availability") "online"
    · simp [h, ih]
    · simp [h]

theorem configTopics_append (l1 l2 : List Event) :
    configTopics (l1 ++ l2) = configTopics l1 ++ configTopics l2 := by
  induction l1 with
  | nil => rfl
  | cons ev rest ih => cases ev <;> simp [configTopics, ih]

theorem availTopics_append (l1 l2 : List Event) :
    availTopics (l1 ++ l2) = availTopics l1 ++ availTopics l2 := by
  induction l1 with
  | nil => rfl
  | cons ev rest ih => cases ev <;> simp [availTopics, ih]

theorem configTopics_publishDiscovery (t : Transport) (e : Entity) :
    configTopics (Entity.publishDiscovery t e).2 = [e.topicBase ++ "config"] := by
  unfold Entity.publishDiscovery
  by_cases h : t.pub (e.topicBase ++ "config") e.configPayload
  · cases hc : e.callbackPtr <;> simp [h, hc, configTopics]
  · simp [h, configTopics]

theorem availTopics_publishDiscovery (t : Transport) (e : Entity) :
    availTopics (Entity.publishDiscovery t e).2 = [] := by
  unfold Entity.publishDiscovery
  by_cases h : t.pub (e.topicBase ++ "config") e.configPayload
  · cases hc : e.callbackPtr <;> simp [h, hc, availTopics]
  · simp [h, availTopics]

theorem configTopics_discoveryReplay (t : Transport) (es : List Entity) :
    configTopics (discoveryReplay t es) = es.map (fun e => e.topicBase ++ "config") := by
  induction es with
  | nil => rfl
  | cons e rest ih =>
    simp [discoveryReplay, configTopics_append, configTopics_publishDiscovery, ih]

theorem availTopics_discoveryReplay (t : Transport) (es : List Entity) :
    availTopics (discoveryReplay t es) = [] := by
  induction es with
  | nil => rfl
  | cons e rest ih =>
    simp [discoveryReplay, availTopics_append, availTopics_publishDiscovery, ih]

theorem availTopics_publishAvailList (t : Transport) (es : List Entity) :
    availTopics (publishAvailList t es).2
      = (availUpTo t es).map (fun e => e.topicBase ++ "availability") := by
  induction es with
  | nil => rfl
  | cons e rest ih =>
    simp only [publishAvailList, availUpTo, Entity.publishAvailability]
    by_cases h : t.pub (e.topicBase ++ "availability") "online"
    · simp [h, availTopics_append, availTopics, ih]
    · simp [h, availTopics]

theorem configTopics_publishAvailList (t : Transport) (es : List Entity) :
    configTopics (publishAvailList t es).2 = [] := by
  induction es with
  | nil => rfl
  | cons e rest ih =>
    simp only [publishAvailList, Entity.publishAvailability]
    by_cases h : t.pub (e.topicBase ++ "availability") "online"
    · simp [h, configTopics_append, configTopics, ih]
    · simp [h, configTopics]

theorem availUpTo_of_all (t : Transport) (es : List Entity)
    (h : ∀ e ∈ es, t.pub (e.topicBase ++ "availability") "online" = true) :
    availUpTo t es = es := by
  induction es with
  | nil => rfl
  | cons e rest ih =>
    simp [availUpTo, h e (by simp), ih (fun x hx => h x (by simp [hx]))]

theorem dispatchLoop_eq_filter_map (es : List Entity) (topic payload : String) :
    dispatchLoop es topic payload
      = (es.filter (fun e =>
            (topic == e.topicBase ++ "command") && e.callbackPtr.isSome)).map
          (fun e => Event.invoke (e.callbackPtr.getD 0) topic payload) := by
  induction es with
  | nil => rfl
  | cons e rest ih =>
    simp only [dispatchLoop, List.filter_cons]
    by_cases h : topic = e.topicBase ++ "command"
    · subst h
      cases hc : e.callbackPtr with
      | some k => simp [hc, ih]
      | none => simp [hc, ih]
    · simp [h, ih]

/-- Claim C1 (counterexample): with two registered entities and a transport
on which the first entity's availability publish fails, the hub birth
message (`homeassistant/status` / `"online"`) does NOT result in one
availability publish per entity — only one availability publish occurs
for the two entities, contradicting "exactly N availability publishes
... regardless of whether any individual entity's publish fails". -/
theorem hubRestart_availability_not_all :
    availTopics (MQTT_HASS.globalCallback tFailA stAB "homeassistant/status" "online")
        ≠ stAB.entities.map (fun e => e.topicBase ++ "availability")
    ∧ (availTopics (MQTT_HASS.globalCallback tFailA stAB "homeassistant/status" "online")).length
        ≠ stAB.entities.length := by
  constructor
  · decide
  · decide

/-- Claim C1 (amended): on the hub birth message the callback performs
exactly N discovery (config) publishes, one per entity in registration
order, regardless of any publish outcome, followed by availability
publishes in registration order that stop at the first failed
availability publish; when every availability publish succeeds there are
exactly N of them, one per entity in registration order.  The trace is
the discovery segment (which contains no availability publish) followed
by the availability segment (which contains no config publish). -/
theorem hubRestart_replay (t : Transport) (st : MQTT_HASS) :
    configTopics (MQTT_HASS.globalCallback t st "homeassistant/status" "online")
        = st.entities.map (fun e => e.topicBase ++ "config")
    ∧ availTopics (MQTT_HASS.globalCallback t st "homeassistant/status" "online")
        = (availUpTo t st.entities).map (fun e => e.topicBase ++ "availability")
    ∧ MQTT_HASS.globalCallback t st "homeassistant/status" "online"
        = discoveryReplay t st.entities ++ (publishAvailList t st.entities).2
    ∧ availTopics (discoveryReplay t st.entities) = []
    ∧ configTopics (publishAvailList t st.entities).2 = []
    ∧ ((∀ e ∈ st.entities, t.pub (e.topicBase ++ "availability") "online" = true) →
        availTopics (MQTT_HASS.globalCallback t st "homeassistant/status" "online")
          = st.entities.map (fun e => e.topicBase ++ "availability")) := by
  have hgc : MQTT_HASS.globalCallback t st "homeassistant/status" "online"
      = discoveryReplay t st.entities ++ (publishAvailList t st.entities).2 := by
    simp [MQTT_HASS.globalCallback, MQTT_HASS.publishAvailabilities]
  refine ⟨?_, ?_, hgc, availTopics_discoveryReplay t st.entities,
          configTopics_publishAvailList t st.entities, ?_⟩
  · rw [hgc, configTopics_append, configTopics_discoveryReplay,
        configTopics_publishAvailList, List.append_nil]
  · rw [hgc, availTopics_append, availTopics_discoveryReplay,
        availTopics_publishAvailList, List.nil_append]
  · intro h
    rw [hgc, availTopics_append, availTopics_discoveryReplay,
        availTopics_publishAvailList, List.nil_append, availUpTo_of_all t st.entities h]

/-- Witness for the amended C1: on an all-success transport with the
two-entity registry, the availability publishes of the replay are one
per entity in registration order. -/
theorem hubRestart_replay_witness :
    availTopics (MQTT_HASS.globalCallback tAll stAB "homeassistant/status" "online")
      = stAB.entities.map (fun e => e.topicBase ++ "availability") :=
  (hubRestart_replay tAll stAB).2.2.2.2.2 (by decide)

/-- Claim C2 (code bug): when not already connected and the transport
connect succeeds, `MQTT_HASS::connect` returns the NEGATION of the
subscribe result (`return !MQTT::subscribe("homeassistant/status")`),
so it returns `false` exactly when the subscription to
`homeassistant/status` succeeds — contradicting both the claim and the
function's own documentation ("true if the connection is successfully
established"). -/
theorem connect_negates_subscribe (t : Transport) (st : MQTT_HASS)
    (serial timeNow username password : String)
    (h1 : st.connected = false) (h2 : t.connResult = true) :
    (MQTT_HASS.connect t st serial timeNow username password).1
      = !(t.sub "homeassistant/status") := by
  simp [MQTT_HASS.connect, h1, h2]

/-- Witness for C2: on the all-success transport, starting disconnected,
`connect` returns the negation of the (successful) subscribe. -/
theorem connect_negates_subscribe_witness :
    (MQTT_HASS.connect tAll st0 "SER" "42" "user" "pw").1
      = !(tAll.sub "homeassistant/status") :=
  connect_negates_subscribe tAll st0 "SER" "42" "user" "pw" rfl rfl

/-- Claim C3 (counterexample): on a transport where every publish fails,
the entity's discovery publish fails, yet `registerEntity` returns
`true` (the append result) — contradicting "returns false if the
entity's discovery publish failed"; the entity is still appended. -/
theorem registerEntity_ignores_discovery_cex :
    (Entity.publishDiscovery tNone ceA).1 = false
    ∧ (MQTT_HASS.registerEntity tNone st0 ceA).1 = true
    ∧ ((MQTT_HASS.registerEntity tNone st0 ceA).2.1).entities = [ceA] := by
  refine ⟨by decide, rfl, by decide⟩

/-- Claim C3 (amended): `registerEntity` ignores the result of the
discovery publish: it returns `true` (the result of appending to the
entity vector) regardless of the discovery outcome, the entity is
always appended at the end of the registry (registration is not rolled
back on discovery failure), and the discovery publish is attempted
exactly as `Entity::publishDiscovery` prescribes. -/
theorem registerEntity_returns_append (t : Transport) (st : MQTT_HASS) (e : Entity) :
    (MQTT_HASS.registerEntity t st e).1 = true
    ∧ ((MQTT_HASS.registerEntity t st e).2.1).entities = st.entities ++ [e]
    ∧ (MQTT_HASS.registerEntity t st e).2.2 = (Entity.publishDiscovery t e).2 :=
  ⟨rfl, rfl, rfl⟩

/-- Claim C4 (code bug): whenever `connect` is called while not connected,
the registry's entity list ends up empty — the code clears a non-empty
entity list inside `connect()` (`if (!entities_.isEmpty())
entities_.clear();`), contradicting the claim that the entity list
persists across disconnect/reconnect. -/
theorem connect_clears_entities (t : Transport) (st : MQTT_HASS)
    (serial timeNow username password : String) (h1 : st.connected = false) :
    ((MQTT_HASS.connect t st serial timeNow username password).2.1).entities = [] := by
  by_cases he : st.entities.isEmpty
  · by_cases hc : t.connResult <;>
      simp [MQTT_HASS.connect, h1, he, hc, List.isEmpty_iff.mp he]
  · by_cases hc : t.connResult <;> simp [MQTT_HASS.connect, h1, he, hc]

/-- Witness for C4: a disconnected registry holding one entity has an empty
entity list after `connect`. -/
theorem connect_clears_entities_witness :
    ((MQTT_HASS.connect tAll stOneDisc "SER" "42" "user" "pw").2.1).entities = [] :=
  connect_clears_entities tAll stOneDisc "SER" "42" "user" "pw" rfl

/-- Claim C5: over entities [e1, e2, e3] where e1's availability publish
succeeds and e2's fails, `publishAvailabilities` publishes e1's
availability, returns `false` upon e2's failure, and never attempts e3
(the trace holds exactly e1's and e2's availability publishes);
moreover, for every registry it returns `true` exactly when every
registered entity's availability publish succeeds. -/
theorem publishAvailabilities_short_circuits (t : Transport) (conn : Bool)
    (e1 e2 e3 : Entity)
    (h1 : t.pub (e1.topicBase ++ "availability") "online" = true)
    (h2 : t.pub (e2.topicBase ++ "availability") "online" = false) :
    MQTT_HASS.publishAvailabilities t ⟨[e1, e2, e3], conn⟩
      = (false, [Event.pubAvail (e1.topicBase ++ "availability") "online",
                 Event.pubAvail (e2.topicBase ++ "availability") "online"])
    ∧ ∀ (st : MQTT_HASS), (MQTT_HASS.publishAvailabilities t st).1 = true ↔
        ∀ e ∈ st.entities, t.pub (e.topicBase ++ "availability") "online" = true := by
  constructor
  · simp [MQTT_HASS.publishAvailabilities, publishAvailList,
          Entity.publishAvailability, h1, h2]
  · intro st
    rw [MQTT_HASS.publishAvailabilities, publishAvailList_fst]
    simp [List.all_eq_true]

/-- Witness for C5: with a transport failing exactly `ceB`'s availability
topic, the pass over [ceA, ceB, ceS] publishes `ceA`'s and `ceB`'s
availability only and returns `false`. -/
theorem publishAvailabilities_short_circuits_witness :
    MQTT_HASS.publishAvailabilities tFailB ⟨[ceA, ceB, ceS], true⟩
      = (false, [Event.pubAvail (ceA.topicBase ++ "availability") "online",
                 Event.pubAvail (ceB.topicBase ++ "availability") "online"]) :=
  (publishAvailabilities_short_circuits tFailB true ceA ceB ceS (by decide) (by decide)).1

/-- Claim C6: for an inbound message on a topic other than
`homeassistant/status`, the callback invokes the handlers of exactly the
registered entities whose `topicBase + "command"` equals the topic and
whose callback pointer is non-null, in registration order, passing the
raw topic and payload; when no entity matches, the trace is empty. -/
theorem commandRouting (t : Transport) (st : MQTT_HASS) (topic payload : String)
    (h : topic ≠ "homeassistant/status") :
    MQTT_HASS.globalCallback t st topic payload
      = (st.entities.filter (fun e =>
            (topic == e.topicBase ++ "command") && e.callbackPtr.isSome)).map
          (fun e => Event.invoke (e.callbackPtr.getD 0) topic payload) := by
  simp only [MQTT_HASS.globalCallback, if_neg h]
  exact dispatchLoop_eq_filter_map st.entities topic payload

/-- Witness for C6: a command on `ceA`'s command topic reaches exactly the
matching entities of the registry [ceA, ceB]. -/
theorem commandRouting_witness :
    MQTT_HASS.globalCallback tAll stAB "homeassistant/lock/particle_dev/a/command" "PRESS"
      = (stAB.entities.filter (fun e =>
            ("homeassistant/lock/particle_dev/a/command" == e.topicBase ++ "command")
              && e.callbackPtr.isSome)).map
          (fun e => Event.invoke (e.callbackPtr.getD 0)
            "homeassistant/lock/particle_dev/a/command" "PRESS") :=
  commandRouting tAll stAB "homeassistant/lock/particle_dev/a/command" "PRESS" (by decide)

/-- Claim C10: when every registered entity matches the inbound command
topic and has a non-null handler, every entity's handler is invoked, in
registration order — dispatch does not stop after the first match. -/
theorem dispatch_all_matching (t : Transport) (st : MQTT_HASS) (topic payload : String)
    (h : topic ≠ "homeassistant/status")
    (hall : ∀ e ∈ st.entities,
        topic = e.topicBase ++ "command" ∧ e.callbackPtr.isSome = true) :
    MQTT_HASS.globalCallback t st topic payload
      = st.entities.map (fun e => Event.invoke (e.callbackPtr.getD 0) topic payload) := by
  have hf : st.entities.filter (fun e =>
        (topic == e.topicBase ++ "command") && e.callbackPtr.isSome) = st.entities := by
    refine List.filter_eq_self.mpr ?_
    intro e he
    obtain ⟨ht, hc⟩ := hall e he
    simp [ht, hc]
  simp only [MQTT_HASS.globalCallback, if_neg h, dispatchLoop_eq_filter_map, hf]

/-- Witness for C10: both colliding entities `ceA` and `ceC` (same command
topic, distinct handlers) are dispatched, in registration order. -/
theorem dispatch_all_matching_witness :
    MQTT_HASS.globalCallback tAll stAC "homeassistant/lock/particle_dev/a/command" "LOCK"
      = stAC.entities.map (fun e => Event.invoke (e.callbackPtr.getD 0)
          "homeassistant/lock/particle_dev/a/command" "LOCK") :=
  dispatch_all_matching tAll stAC "homeassistant/lock/particle_dev/a/command" "LOCK"
    (by decide) (by decide)

/-- Claim C7: when a kind's device_class / unit_of_measurement /
entity_category equals the taxonomy's None/empty default, the
corresponding field is entirely absent from the discovery payload the
writer builds (so no literal "none"/"None" is ever written for it):
shown for BinarySensor, Sensor (all three optional fields), Button and
Cover. -/
theorem discovery_omits_default_fields (serial : String) :
    (∀ b : BinarySensor, b.deviceClass = 0 →
        "device_class" ∉ (BinarySensor.discoveryEntries serial b).map JEntry.keyOf)
    ∧ (∀ s : Sensor, s.deviceClass = 0 →
        "device_class" ∉ (Sensor.discoveryEntries serial s).map JEntry.keyOf)
    ∧ (∀ s : Sensor, s.unitOfMeasurement = "" →
        "unit_of_measurement" ∉ (Sensor.discoveryEntries serial s).map JEntry.keyOf)
    ∧ (∀ s : Sensor, s.entityCategory = Sensor.EntityCategories.normal →
        "entity_category" ∉ (Sensor.discoveryEntries serial s).map JEntry.keyOf)
    ∧ (∀ b : Button, b.deviceClass = 0 →
        "device_class" ∉ (Button.discoveryEntries serial b).map JEntry.keyOf)
    ∧ (∀ c : Cover, c.deviceClass = 0 →
        "device_class" ∉ (Cover.discoveryEntries serial c).map JEntry.keyOf) := by
  refine ⟨?_, ?_, ?_, ?_, ?_, ?_⟩
  · intro b h
    simp [BinarySensor.discoveryEntries, h, JEntry.keyOf]
  · intro s h
    by_cases hu : s.unitOfMeasurement = "" <;>
      by_cases hc : s.entityCategory = Sensor.EntityCategories.diagnostic <;>
        simp [Sensor.discoveryEntries, h, hu, hc, JEntry.keyOf]
  · intro s h
    by_cases hd : s.deviceClass = 0 <;>
      by_cases hc : s.entityCategory = Sensor.EntityCategories.diagnostic <;>
        simp [Sensor.discoveryEntries, h, hd, hc, JEntry.keyOf]
  · intro s h
    have hc : s.entityCategory ≠ Sensor.EntityCategories.diagnostic := by
      rw [h]; intro hx; cases hx
    by_cases hd : s.deviceClass = 0 <;>
      by_cases hu : s.unitOfMeasurement = "" <;>
        simp [Sensor.discoveryEntries, hd, hu, hc, JEntry.keyOf]
  · intro b h
    simp [Button.discoveryEntries, h, JEntry.keyOf]
  · intro c h
    simp [Cover.discoveryEntries, h, JEntry.keyOf]

/-- Witness for C7: the discovery payload of a concrete binary sensor with
the default device class has no `device_class` field. -/
theorem discovery_omits_default_fields_witness :
    "device_class" ∉ (BinarySensor.discoveryEntries "SER" bsPlain).map JEntry.keyOf :=
  (discovery_omits_default_fields "SER").1 bsPlain rfl

/-- Claim C8: `updateState` publishes the kind's canonical token to
`topicBase + "state"`; BinarySensor publishes exactly "OFF"/"ON", Lock
publishes the uppercase tokens and Cover the lowercase tokens. -/
theorem updateState_canonical_tokens :
    (∀ (t : Transport) (b : BinarySensor) (v : BinarySensor.States),
        BinarySensor.updateState t b v
          = (t.pub (b.topicBase ++ "state") (BinarySensor.states2Str v),
             [Event.pubState (b.topicBase ++ "state") (BinarySensor.states2Str v)]))
    ∧ BinarySensor.states2Str BinarySensor.States.OFF = "OFF"
    ∧ BinarySensor.states2Str BinarySensor.States.ON = "ON"
    ∧ (∀ (t : Transport) (l : Lock) (v : Lock.States),
        Lock.updateState t l v
          = (t.pub (l.topicBase ++ "state") (Lock.states2Str v),
             [Event.pubState (l.topicBase ++ "state") (Lock.states2Str v)]))
    ∧ Lock.states2Str Lock.States.UNLOCKED = "UNLOCKED"
    ∧ Lock.states2Str Lock.States.UNLOCKING = "UNLOCKING"
    ∧ Lock.states2Str Lock.States.LOCKED = "LOCKED"
    ∧ Lock.states2Str Lock.States.LOCKING = "LOCKING"
    ∧ Lock.states2Str Lock.States.JAMMED = "JAMMED"
    ∧ (∀ (t : Transport) (c : Cover) (v : Cover.States),
        Cover.updateState t c v
          = (t.pub (c.topicBase ++ "state") (Cover.states2Str v),
             [Event.pubState (c.topicBase ++ "state") (Cover.states2Str v)]))
    ∧ Cover.states2Str Cover.States.OPEN = "open"
    ∧ Cover.states2Str Cover.States.CLOSED = "closed"
    ∧ Cover.states2Str Cover.States.OPENING = "opening"
    ∧ Cover.states2Str Cover.States.CLOSING = "closing"
    ∧ Cover.states2Str Cover.States.STOPPED = "stopped" :=
  ⟨fun _ _ _ => rfl, rfl, rfl, fun _ _ _ => rfl, rfl, rfl, rfl, rfl, rfl,
   fun _ _ _ => rfl, rfl, rfl, rfl, rfl, rfl⟩

/-- Claim C9: calling `connect` while already connected returns `true`,
changes no state, performs no transport interaction at all, and a second
call on the resulting state also returns `true`. -/
theorem connect_idempotent_when_connected (t : Transport) (st : MQTT_HASS)
    (serial timeNow username password : String) (h : st.connected = true) :
    MQTT_HASS.connect t st serial timeNow username password = (true, st, [])
    ∧ (MQTT_HASS.connect t
        (MQTT_HASS.connect t st serial timeNow username password).2.1
        serial timeNow username password).1 = true := by
  have h1 : MQTT_HASS.connect t st serial timeNow username password = (true, st, []) := by
    simp [MQTT_HASS.connect, h]
  refine ⟨h1, ?_⟩
  rw [h1]
  simp [MQTT_HASS.connect, h]

/-- Witness for C9: on a connected one-entity registry, `connect` is a pure
no-op success. -/
theorem connect_idempotent_when_connected_witness :
    MQTT_HASS.connect tAll stConn "SER" "42" "user" "pw" = (true, stConn, []) :=
  (connect_idempotent_when_connected tAll stConn "SER" "42" "user" "pw" rfl).1
